import Mathlib

/-!
Shallow embedding of the `i_mth` vector library (src/src/vectors/vector2d.rs,
src/src/vectors/vector3d.rs).  The Rust `f64` components are modelled as real
numbers; `f64::sqrt`, `f64::atan`, `f64::acos` become `Real.sqrt`,
`Real.arctan`, `Real.arccos`.  The two in-place mutating methods
(`to_unit`, `as_cylindrical`, `as_spherical`) are modelled by explicit state
passing: a function from the receiver's value before the call to its value
after the call, with each Rust field assignment translated as one sequential
update so that later assignments see the fields already overwritten by
earlier ones, exactly as in the source.
-/

/-- `Vector2D` from vector2d.rs: a pair of `f64` components. -/
structure Vector2D where
  x : ℝ
  y : ℝ

/-- `Vector3D` from vector3d.rs: a triple of `f64` components. -/
structure Vector3D where
  x : ℝ
  y : ℝ
  z : ℝ

namespace Vector2D

/-- `Vector2D::new`. -/
def new (x y : ℝ) : Vector2D := ⟨x, y⟩

/-- `Vector2D::i`. -/
def i : Vector2D := ⟨1, 0⟩

/-- `Vector2D::j`. -/
def j : Vector2D := ⟨0, 1⟩

/-- `Vector2D::origin`. -/
def origin : Vector2D := ⟨0, 0⟩

/-- `Vector2D::dot`. -/
def dot (v other : Vector2D) : ℝ :=
  (v.x * other.x) + (v.y * other.y)

/-- `Vector2D::scale`. -/
def scale (v : Vector2D) (value : ℝ) : Vector2D :=
  ⟨v.x * value, v.y * value⟩

/-- `Vector2D::squared_magnitude`. -/
def squared_magnitude (v : Vector2D) : ℝ :=
  (v.x * v.x) + (v.y * v.y)

/-- `Vector2D::magnitude`. -/
noncomputable def magnitude (v : Vector2D) : ℝ :=
  Real.sqrt v.squared_magnitude

/-- `Vector2D::to_unit` (mutating, modelled as before-state to after-state):
computes `mag`; if `mag > 0.0` multiplies each component by `1.0 / mag`,
otherwise leaves the receiver unchanged. -/
noncomputable def to_unit (v : Vector2D) : Vector2D :=
  let mag := v.magnitude
  if mag > 0 then
    let inv_mag := 1 / mag
    ⟨v.x * inv_mag, v.y * inv_mag⟩
  else v

/-- `Vector2D::normalized`: `Some` of the scaled vector when `mag > 0.0`,
otherwise `None`. -/
noncomputable def normalized (v : Vector2D) : Option Vector2D :=
  let mag := v.magnitude
  if mag > 0 then
    let inv_mag := 1 / mag
    some ⟨v.x * inv_mag, v.y * inv_mag⟩
  else none

/-- `Vector2D::to_3d`. -/
def to_3d (v : Vector2D) (z : ℝ) : Vector3D :=
  ⟨v.x, v.y, z⟩

end Vector2D

namespace Vector3D

/-- `Vector3D::new`. -/
def new (x y z : ℝ) : Vector3D := ⟨x, y, z⟩

/-- `Vector3D::i`. -/
def i : Vector3D := ⟨1, 0, 0⟩

/-- `Vector3D::j`. -/
def j : Vector3D := ⟨0, 1, 0⟩

/-- `Vector3D::k`. -/
def k : Vector3D := ⟨0, 0, 1⟩

/-- `Vector3D::origin`. -/
def origin : Vector3D := ⟨0, 0, 0⟩

/-- `Vector3D::dot`. -/
def dot (v other : Vector3D) : ℝ :=
  (v.x * other.x) + (v.y * other.y) + (v.z * other.z)

/-- `Vector3D::cross`: each component written exactly as in the source,
e.g. `x = (self.y * other.z) + (-self.z * other.y)`. -/
def cross (v other : Vector3D) : Vector3D :=
  ⟨(v.y * other.z) + (-v.z * other.y),
   (v.z * other.x) + (-v.x * other.z),
   (v.x * other.y) + (-v.y * other.x)⟩

/-- `Vector3D::triple_scalar_prod`: the direct expansion from the source. -/
def triple_scalar_prod (v oth_1 oth_2 : Vector3D) : ℝ :=
  v.x * ((oth_1.y * oth_2.z) - (oth_1.z * oth_2.y)) +
  v.y * ((oth_1.z * oth_2.x) - (oth_1.x * oth_2.z)) +
  v.z * ((oth_1.x * oth_2.y) - (oth_1.y * oth_2.x))

/-- `Vector3D::scale`. -/
def scale (v : Vector3D) (value : ℝ) : Vector3D :=
  ⟨v.x * value, v.y * value, v.z * value⟩

/-- `Vector3D::squared_magnitude`. -/
def squared_magnitude (v : Vector3D) : ℝ :=
  (v.x * v.x) + (v.y * v.y) + (v.z * v.z)

/-- `Vector3D::magnitude`. -/
noncomputable def magnitude (v : Vector3D) : ℝ :=
  Real.sqrt v.squared_magnitude

/-- `Vector3D::to_unit` (mutating, modelled as before-state to after-state). -/
noncomputable def to_unit (v : Vector3D) : Vector3D :=
  let mag := v.magnitude
  if mag > 0 then
    let inv_mag := 1 / mag
    ⟨v.x * inv_mag, v.y * inv_mag, v.z * inv_mag⟩
  else v

/-- `Vector3D::normalized`. -/
noncomputable def normalized (v : Vector3D) : Option Vector3D :=
  let mag := v.magnitude
  if mag > 0 then
    let inv_mag := 1 / mag
    some ⟨v.x * inv_mag, v.y * inv_mag, v.z * inv_mag⟩
  else none

/-- `Vector3D::to_2d`. -/
def to_2d (v : Vector3D) : Vector2D :=
  ⟨v.x, v.y⟩

/-- `Vector3D::as_cylindrical` (mutating): the source first assigns
`self.x = ((self.x * self.x) + (self.y * self.y)).sqrt()` and then assigns
`self.y = (self.y / self.x).atan()`, where `self.x` is the already
overwritten x.  `z` is never touched. -/
noncomputable def as_cylindrical (v : Vector3D) : Vector3D :=
  let v1 : Vector3D := { v with x := Real.sqrt ((v.x * v.x) + (v.y * v.y)) }
  { v1 with y := Real.arctan (v1.y / v1.x) }

/-- `Vector3D::as_spherical` (mutating): the source assigns, in order,
`self.x = self.magnitude()`, then `self.y = (self.z / self.magnitude()).acos()`
(this second `self.magnitude()` call sees the already overwritten x), then
`self.z = (self.y / self.x).atan()` (seeing the overwritten x and y). -/
noncomputable def as_spherical (v : Vector3D) : Vector3D :=
  let v1 : Vector3D := { v with x := v.magnitude }
  let v2 : Vector3D := { v1 with y := Real.arccos (v1.z / v1.magnitude) }
  { v2 with z := Real.arctan (v2.y / v2.x) }

/-- `impl Index<usize> for Vector3D`: indices 0, 1, 2 return x, y, z;
any other index panics, modelled as `none`. -/
def index (v : Vector3D) : ℕ → Option ℝ
  | 0 => some v.x
  | 1 => some v.y
  | 2 => some v.z
  | _ => none

end Vector3D

/-- Claim C4: for every pair of `Vector3D` values `v` and `o`, `v.cross(o)`
equals the standard right-handed cross product
`(v.y*o.z - v.z*o.y, v.z*o.x - v.x*o.z, v.x*o.y - v.y*o.x)`; in particular
`Vector3D::i().cross(Vector3D::j()) == Vector3D::k()`. -/
theorem cross_spec (v o : Vector3D) :
    v.cross o = ⟨v.y * o.z - v.z * o.y, v.z * o.x - v.x * o.z,
                 v.x * o.y - v.y * o.x⟩ ∧
    Vector3D.i.cross Vector3D.j = Vector3D.k := by
  constructor
  · simp only [Vector3D.cross, Vector3D.mk.injEq]
    refine ⟨by ring, by ring, by ring⟩
  · simp only [Vector3D.cross, Vector3D.i, Vector3D.j, Vector3D.k,
      Vector3D.mk.injEq]
    norm_num

/-- Claim C6: for every triple of `Vector3D` values, the directly expanded
`triple_scalar_prod` agrees with the composed `v.dot(a.cross(b))`. -/
theorem triple_scalar_prod_eq_dot_cross (v a b : Vector3D) :
    v.triple_scalar_prod a b = v.dot (a.cross b) := by
  simp only [Vector3D.triple_scalar_prod, Vector3D.dot, Vector3D.cross]
  ring

/-- Claim C9: for every `Vector3D` `v3`, the round trip
`v3.to_2d().to_3d(v3.z)` restores all three components exactly. -/
theorem to_2d_to_3d_roundtrip (v3 : Vector3D) :
    (v3.to_2d).to_3d v3.z = v3 := rfl

/-! ### Helper lemmas (shared across claims) -/

theorem Vector2D.squared_magnitude_nonneg_v2 (v : Vector2D) :
    0 ≤ v.squared_magnitude := by
  unfold Vector2D.squared_magnitude
  have := mul_self_nonneg v.x
  have := mul_self_nonneg v.y
  linarith

theorem Vector3D.squared_magnitude_nonneg_v3 (v : Vector3D) :
    0 ≤ v.squared_magnitude := by
  unfold Vector3D.squared_magnitude
  have := mul_self_nonneg v.x
  have := mul_self_nonneg v.y
  have := mul_self_nonneg v.z
  linarith

theorem Vector2D.magnitude_nonneg_v2 (v : Vector2D) : 0 ≤ v.magnitude :=
  Real.sqrt_nonneg _

theorem Vector3D.magnitude_nonneg_v3 (v : Vector3D) : 0 ≤ v.magnitude :=
  Real.sqrt_nonneg _

theorem Vector2D.magnitude_scale_v2 (v : Vector2D) (c : ℝ) :
    (v.scale c).magnitude = |c| * v.magnitude := by
  unfold Vector2D.magnitude Vector2D.squared_magnitude Vector2D.scale
  have h : v.x * c * (v.x * c) + v.y * c * (v.y * c)
      = (c * c) * (v.x * v.x + v.y * v.y) := by ring
  simp only [h]
  rw [Real.sqrt_mul (mul_self_nonneg c), Real.sqrt_mul_self_eq_abs]

theorem Vector3D.magnitude_scale_v3 (v : Vector3D) (c : ℝ) :
    (v.scale c).magnitude = |c| * v.magnitude := by
  unfold Vector3D.magnitude Vector3D.squared_magnitude Vector3D.scale
  have h : v.x * c * (v.x * c) + v.y * c * (v.y * c) + v.z * c * (v.z * c)
      = (c * c) * (v.x * v.x + v.y * v.y + v.z * v.z) := by ring
  simp only [h]
  rw [Real.sqrt_mul (mul_self_nonneg c), Real.sqrt_mul_self_eq_abs]

theorem Vector2D.magnitude_mk_three_four : (Vector2D.mk 3 4).magnitude = 5 := by
  unfold Vector2D.magnitude Vector2D.squared_magnitude
  rw [show (3:ℝ) * 3 + 4 * 4 = 5 ^ 2 by norm_num, Real.sqrt_sq (by norm_num)]

theorem Vector3D.magnitude_mk_zero_three_four :
    (Vector3D.mk 0 3 4).magnitude = 5 := by
  unfold Vector3D.magnitude Vector3D.squared_magnitude
  rw [show (0:ℝ) * 0 + 3 * 3 + 4 * 4 = 5 ^ 2 by norm_num,
    Real.sqrt_sq (by norm_num)]

theorem Vector2D.magnitude_origin_v2 : (Vector2D.mk 0 0).magnitude = 0 := by
  unfold Vector2D.magnitude Vector2D.squared_magnitude
  rw [show (0:ℝ) * 0 + 0 * 0 = 0 by norm_num, Real.sqrt_zero]

theorem Vector3D.magnitude_origin_v3 : (Vector3D.mk 0 0 0).magnitude = 0 := by
  unfold Vector3D.magnitude Vector3D.squared_magnitude
  rw [show (0:ℝ) * 0 + 0 * 0 + 0 * 0 = 0 by norm_num, Real.sqrt_zero]

theorem one_lt_sqrt_two : (1:ℝ) < Real.sqrt 2 :=
  (Real.lt_sqrt (by norm_num)).mpr (by norm_num)

/-! ### Claims C5, C2, C7, C10 -/

/-- Claim C5: for every vector (`Vector2D` or `Vector3D`), `magnitude()` equals
the square root of `squared_magnitude()`, is never negative, and is zero only
when the vector is the zero vector (all components exactly 0). -/
theorem magnitude_spec (v2 : Vector2D) (v3 : Vector3D) :
    v2.magnitude = Real.sqrt v2.squared_magnitude ∧
    0 ≤ v2.magnitude ∧
    (v2.magnitude = 0 → v2.x = 0 ∧ v2.y = 0) ∧
    v3.magnitude = Real.sqrt v3.squared_magnitude ∧
    0 ≤ v3.magnitude ∧
    (v3.magnitude = 0 → v3.x = 0 ∧ v3.y = 0 ∧ v3.z = 0) := by
  refine ⟨rfl, v2.magnitude_nonneg_v2, ?_, rfl, v3.magnitude_nonneg_v3, ?_⟩
  · intro h
    have hle : v2.squared_magnitude ≤ 0 := Real.sqrt_eq_zero'.mp h
    unfold Vector2D.squared_magnitude at hle
    constructor <;> nlinarith [mul_self_nonneg v2.x, mul_self_nonneg v2.y]
  · intro h
    have hle : v3.squared_magnitude ≤ 0 := Real.sqrt_eq_zero'.mp h
    unfold Vector3D.squared_magnitude at hle
    refine ⟨?_, ?_, ?_⟩ <;>
      nlinarith [mul_self_nonneg v3.x, mul_self_nonneg v3.y,
        mul_self_nonneg v3.z]

theorem magnitude_spec_witness :
    ((Vector2D.mk 0 0).x = 0 ∧ (Vector2D.mk 0 0).y = 0) ∧
    ((Vector3D.mk 0 0 0).x = 0 ∧ (Vector3D.mk 0 0 0).y = 0 ∧
      (Vector3D.mk 0 0 0).z = 0) := by
  have h := magnitude_spec ⟨0, 0⟩ ⟨0, 0, 0⟩
  exact ⟨h.2.2.1 Vector2D.magnitude_origin_v2,
    h.2.2.2.2.2 Vector3D.magnitude_origin_v3⟩

/-- Claim C2: for every vector (`Vector2D` or `Vector3D`), `normalized()`
returns `None` iff `magnitude() == 0`; otherwise it returns `Some u` where
`u` has magnitude exactly 1 in the real-number model and `u` is the vector
scaled by the positive factor `1 / magnitude`. -/
theorem normalized_spec (v2 : Vector2D) (v3 : Vector3D) :
    (v2.normalized = none ↔ v2.magnitude = 0) ∧
    (v2.magnitude ≠ 0 →
      v2.normalized = some (v2.scale (1 / v2.magnitude)) ∧
      (v2.scale (1 / v2.magnitude)).magnitude = 1 ∧
      0 < 1 / v2.magnitude) ∧
    (v3.normalized = none ↔ v3.magnitude = 0) ∧
    (v3.magnitude ≠ 0 →
      v3.normalized = some (v3.scale (1 / v3.magnitude)) ∧
      (v3.scale (1 / v3.magnitude)).magnitude = 1 ∧
      0 < 1 / v3.magnitude) := by
  refine ⟨?_, ?_, ?_, ?_⟩
  · unfold Vector2D.normalized
    by_cases h : v2.magnitude > 0
    · simp only [if_pos h]
      exact ⟨fun hc => absurd hc (by simp), fun hc => absurd hc h.ne'⟩
    · have hm : v2.magnitude = 0 :=
        le_antisymm (not_lt.mp h) v2.magnitude_nonneg_v2
      simp [if_neg h, hm]
  · intro hne
    have hpos : 0 < v2.magnitude := lt_of_le_of_ne v2.magnitude_nonneg_v2
      (Ne.symm hne)
    refine ⟨?_, ?_, by positivity⟩
    · unfold Vector2D.normalized
      simp only [if_pos hpos]
      rfl
    · rw [v2.magnitude_scale_v2, abs_of_pos (by positivity), one_div,
        inv_mul_cancel₀ hne]
  · unfold Vector3D.normalized
    by_cases h : v3.magnitude > 0
    · simp only [if_pos h]
      exact ⟨fun hc => absurd hc (by simp), fun hc => absurd hc h.ne'⟩
    · have hm : v3.magnitude = 0 :=
        le_antisymm (not_lt.mp h) v3.magnitude_nonneg_v3
      simp [if_neg h, hm]
  · intro hne
    have hpos : 0 < v3.magnitude := lt_of_le_of_ne v3.magnitude_nonneg_v3
      (Ne.symm hne)
    refine ⟨?_, ?_, by positivity⟩
    · unfold Vector3D.normalized
      simp only [if_pos hpos]
      rfl
    · rw [v3.magnitude_scale_v3, abs_of_pos (by positivity), one_div,
        inv_mul_cancel₀ hne]

theorem normalized_spec_witness :
    ((Vector2D.mk 3 4).normalized
        = some ((Vector2D.mk 3 4).scale (1 / (Vector2D.mk 3 4).magnitude)) ∧
      ((Vector2D.mk 3 4).scale (1 / (Vector2D.mk 3 4).magnitude)).magnitude
        = 1 ∧
      0 < 1 / (Vector2D.mk 3 4).magnitude) ∧
    ((Vector3D.mk 0 3 4).normalized
        = some ((Vector3D.mk 0 3 4).scale (1 / (Vector3D.mk 0 3 4).magnitude)) ∧
      ((Vector3D.mk 0 3 4).scale (1 / (Vector3D.mk 0 3 4).magnitude)).magnitude
        = 1 ∧
      0 < 1 / (Vector3D.mk 0 3 4).magnitude) := by
  have h := normalized_spec ⟨3, 4⟩ ⟨0, 3, 4⟩
  exact ⟨h.2.1 (by rw [Vector2D.magnitude_mk_three_four]; norm_num),
    h.2.2.2 (by rw [Vector3D.magnitude_mk_zero_three_four]; norm_num)⟩

/-- Claim C7: for every vector (`Vector2D` or `Vector3D`), `to_unit()` scales
every component by `1 / magnitude` when `magnitude > 0`, and otherwise leaves
every component unchanged (a silent no-op, not an error). -/
theorem to_unit_spec (v2 : Vector2D) (v3 : Vector3D) :
    (0 < v2.magnitude → v2.to_unit = v2.scale (1 / v2.magnitude)) ∧
    (¬ 0 < v2.magnitude → v2.to_unit = v2) ∧
    (0 < v3.magnitude → v3.to_unit = v3.scale (1 / v3.magnitude)) ∧
    (¬ 0 < v3.magnitude → v3.to_unit = v3) := by
  refine ⟨?_, ?_, ?_, ?_⟩
  · intro h
    unfold Vector2D.to_unit
    simp only [if_pos h]
    rfl
  · intro h
    unfold Vector2D.to_unit
    simp only [if_neg h]
  · intro h
    unfold Vector3D.to_unit
    simp only [if_pos h]
    rfl
  · intro h
    unfold Vector3D.to_unit
    simp only [if_neg h]

theorem to_unit_spec_witness :
    (Vector2D.mk 3 4).to_unit
        = (Vector2D.mk 3 4).scale (1 / (Vector2D.mk 3 4).magnitude) ∧
    (Vector2D.mk 0 0).to_unit = Vector2D.mk 0 0 ∧
    (Vector3D.mk 0 3 4).to_unit
        = (Vector3D.mk 0 3 4).scale (1 / (Vector3D.mk 0 3 4).magnitude) ∧
    (Vector3D.mk 0 0 0).to_unit = Vector3D.mk 0 0 0 :=
  ⟨(to_unit_spec ⟨3, 4⟩ ⟨0, 3, 4⟩).1
      (by rw [Vector2D.magnitude_mk_three_four]; norm_num),
   (to_unit_spec ⟨0, 0⟩ ⟨0, 0, 0⟩).2.1
      (by rw [Vector2D.magnitude_origin_v2]; norm_num),
   (to_unit_spec ⟨3, 4⟩ ⟨0, 3, 4⟩).2.2.1
      (by rw [Vector3D.magnitude_mk_zero_three_four]; norm_num),
   (to_unit_spec ⟨0, 0⟩ ⟨0, 0, 0⟩).2.2.2
      (by rw [Vector3D.magnitude_origin_v3]; norm_num)⟩

/-- Claim C10: for every vector (`Vector2D` or `Vector3D`) with
`magnitude > 0`, the mutating and the pure normalization flavors agree
exactly: the state after `to_unit()` is the value `normalized()` wraps in
`Some` for the original state, component for component. -/
theorem to_unit_eq_normalized (v2 : Vector2D) (v3 : Vector3D) :
    (0 < v2.magnitude → v2.normalized = some v2.to_unit) ∧
    (0 < v3.magnitude → v3.normalized = some v3.to_unit) := by
  constructor
  · intro h
    unfold Vector2D.normalized Vector2D.to_unit
    simp only [if_pos h]
  · intro h
    unfold Vector3D.normalized Vector3D.to_unit
    simp only [if_pos h]

theorem to_unit_eq_normalized_witness :
    (Vector2D.mk 3 4).normalized = some (Vector2D.mk 3 4).to_unit ∧
    (Vector3D.mk 0 3 4).normalized = some (Vector3D.mk 0 3 4).to_unit :=
  ⟨(to_unit_eq_normalized ⟨3, 4⟩ ⟨0, 3, 4⟩).1
      (by rw [Vector2D.magnitude_mk_three_four]; norm_num),
   (to_unit_eq_normalized ⟨3, 4⟩ ⟨0, 3, 4⟩).2
      (by rw [Vector3D.magnitude_mk_zero_three_four]; norm_num)⟩

/-- Claim C8: indexing a `Vector3D` by position returns x for 0, y for 1 and
z for 2; every index greater than 2 hits the panicking arm (modelled as
`none`: the fatal, non-recoverable outcome). -/
theorem index_spec (v : Vector3D) (n : ℕ) :
    v.index 0 = some v.x ∧ v.index 1 = some v.y ∧ v.index 2 = some v.z ∧
    (2 < n → v.index n = none) := by
  refine ⟨rfl, rfl, rfl, ?_⟩
  intro h
  obtain ⟨m, rfl⟩ : ∃ m, n = m + 3 := ⟨n - 3, by omega⟩
  rfl

theorem index_spec_witness :
    2 < 3 ∧ (Vector3D.mk 1 2 3).index 3 = none :=
  ⟨by norm_num, (index_spec ⟨1, 2, 3⟩ 3).2.2.2 (by norm_num)⟩

/-! ### Claims C1 and C3: the in-place coordinate conversions -/

theorem Vector3D.magnitude_mk_zero_zero_one :
    (Vector3D.mk 0 0 1).magnitude = 1 := by
  unfold Vector3D.magnitude Vector3D.squared_magnitude
  norm_num

theorem Vector3D.magnitude_mk_one_zero_one :
    (Vector3D.mk 1 0 1).magnitude = Real.sqrt 2 := by
  unfold Vector3D.magnitude Vector3D.squared_magnitude
  norm_num

/-- Claim C1 counterexample: at `v = (0, 0, 1)` the y field after
`as_spherical()` is NOT `acos(z / original magnitude)`.  The original
magnitude is 1, so the claim predicts `acos(1 / 1) = 0`, but the code
re-evaluates `self.magnitude()` after x has already been overwritten with
the radius, so it computes `acos(1 / sqrt 2) = pi / 4`. -/
theorem as_spherical_original_magnitude_cex :
    ((Vector3D.mk 0 0 1).as_spherical).y
      ≠ Real.arccos ((Vector3D.mk 0 0 1).z / (Vector3D.mk 0 0 1).magnitude) := by
  have hy : ((Vector3D.mk 0 0 1).as_spherical).y
      = Real.arccos (1 / Real.sqrt 2) := by
    have h0 : ((Vector3D.mk 0 0 1).as_spherical).y
        = Real.arccos ((1:ℝ)
            / (Vector3D.mk (Vector3D.mk 0 0 1).magnitude 0 1).magnitude) := rfl
    rw [h0, Vector3D.magnitude_mk_zero_zero_one,
      Vector3D.magnitude_mk_one_zero_one]
  have hr : Real.arccos ((Vector3D.mk 0 0 1).z / (Vector3D.mk 0 0 1).magnitude)
      = 0 := by
    have h1 : ((Vector3D.mk 0 0 1).z / (Vector3D.mk 0 0 1).magnitude) = 1 := by
      rw [Vector3D.magnitude_mk_zero_zero_one]; norm_num
    rw [h1, Real.arccos_one]
  rw [hy, hr]
  have hlt : (1:ℝ) / Real.sqrt 2 < 1 :=
    (div_lt_one (lt_trans one_pos one_lt_sqrt_two)).mpr one_lt_sqrt_two
  exact ne_of_gt (Real.arccos_pos.mpr hlt)

/-- Claim C1 as amended: after `as_spherical()`, x is the magnitude of the
ORIGINAL vector; y is `acos(z / m1)` where `m1` is the magnitude RECOMPUTED
after x has already been reassigned to the radius (the magnitude of
`(original magnitude, original y, original z)`), not the original magnitude;
and z is `atan(new y / new x)`, using the already-reassigned fields. -/
theorem as_spherical_char (v : Vector3D) :
    (v.as_spherical).x = v.magnitude ∧
    (v.as_spherical).y
      = Real.arccos (v.z / (Vector3D.mk v.magnitude v.y v.z).magnitude) ∧
    (v.as_spherical).z
      = Real.arctan ((v.as_spherical).y / (v.as_spherical).x) :=
  ⟨rfl, rfl, rfl⟩

/-- Claim C3 (code bug): at `v = (1, 1, 0)` the y field after
`as_cylindrical()` is `atan(1 / sqrt 2)`, because the source divides the
original y by the ALREADY OVERWRITTEN x (the radius `sqrt(x*x + y*y)`),
while the cylindrical angle the claim states is `atan(y / x) = atan(1 / 1)`;
the two values differ.  The z field is unchanged, as claimed. -/
theorem as_cylindrical_angle_divergence :
    ((Vector3D.mk 1 1 0).as_cylindrical).y = Real.arctan (1 / Real.sqrt 2) ∧
    ((Vector3D.mk 1 1 0).as_cylindrical).z = 0 ∧
    Real.arctan (1 / Real.sqrt 2) ≠ Real.arctan (1 / 1) := by
  refine ⟨?_, rfl, ?_⟩
  · have h0 : ((Vector3D.mk 1 1 0).as_cylindrical).y
        = Real.arctan ((1:ℝ) / Real.sqrt ((1:ℝ) * 1 + 1 * 1)) := rfl
    rw [h0]
    norm_num
  · intro h
    have h1 := Real.arctan_injective h
    have hlt : (1:ℝ) / Real.sqrt 2 < 1 :=
      (div_lt_one (lt_trans one_pos one_lt_sqrt_two)).mpr one_lt_sqrt_two
    rw [h1] at hlt
    norm_num at hlt
